import Mathlib

/-!
Verification of the baseline/threshold inference and hypothesis-evaluation
engine of the fb-analyst repository.  Python floats are modelled as rationals;
the positive-infinity sentinel produced by the evidence builder is modelled
explicitly by the `EDelta` type.  Python dicts read through `.get` with string
keys are modelled as association lists where the key set matters, and as
structures where it does not.
-/

namespace AdAnalyst

/-- A delta value: either an ordinary (rational-modelled float) number or the
positive-infinity sentinel that `baseline._pct_delta` produces when the
baseline is zero and the latest value is nonzero. -/
inductive EDelta where
  | fin (q : ℚ)
  | inf
deriving DecidableEq

/-- The IEEE float strict order restricted to the values an `EDelta` ranges
over (real numbers together with positive infinity). -/
def edeltaLt : EDelta → EDelta → Bool
  | .fin a, .fin b => decide (a < b)
  | .fin _, .inf => true
  | .inf, _ => false

/-- The possible shapes of the `initial_confidence` attribute of a hypothesis
dict: a number, a float NaN, a value on which `float()` raises (string,
None, ...), or an absent key. -/
inductive ConfInput where
  | num (q : ℚ)
  | nan
  | nonNumeric
  | absent
deriving DecidableEq

/-- `evaluator._normalize_confidence` composed with the `_safe_float` call and
the `dict.get(..., 0.0)` default: a number is clamped to `[0,1]`; NaN is mapped
to 0 by the `math.isnan` branch; a non-numeric value makes `float()` raise so
`_safe_float` returns its 0.0 default; a missing key defaults to 0.0. -/
def normalizeConfidence : ConfInput → ℚ
  | .num q => max 0 (min 1 q)
  | .nan => 0
  | .nonNumeric => 0
  | .absent => 0

/-- `evaluator._severity_from_delta`: positive infinity classifies as
critical; finite deltas fall through the `-0.40 / -0.20 / -0.05`
break points to high / medium / low / none. -/
def severityFromDelta : EDelta → String
  | .inf => "critical"
  | .fin d =>
    if d < -(2/5 : ℚ) then "high"
    else if d < -(1/5 : ℚ) then "medium"
    else if d < -(1/20 : ℚ) then "low"
    else "none"

/-- The `severity_rank` dict of `evaluator._evaluate_one` (lookups never miss
in the source, so the 0 default is inert). -/
def severityRank (s : String) : ℕ :=
  (([("none", 0), ("low", 1), ("medium", 2), ("high", 3), ("critical", 4)] :
    List (String × ℕ)).lookup s).getD 0

/-- Python `round(x, 4)` (round half to even), modelled on the rationals. -/
def pyRound4 (q : ℚ) : ℚ :=
  let s := q * 10000
  let n := ⌊s⌋
  let frac := s - (n : ℚ)
  let r : ℤ :=
    if frac < 1/2 then n
    else if 1/2 < frac then n + 1
    else if n % 2 = 0 then n else n + 1
  (r : ℚ) / 10000

/-- The evidence record built by `baseline.evidence_from_summary_and_baseline`;
the same field set is embedded (via `evidence.get` with defaults) into every
verdict. -/
structure Evidence where
  last_ctr : ℚ
  ctr_baseline : ℚ
  ctr_delta_pct : EDelta
  last_roas : ℚ
  roas_baseline : ℚ
  roas_delta_pct : EDelta
  rows_used_for_baseline : ℤ
deriving DecidableEq

/-- A dict-shaped hypothesis: the three attributes `_evaluate_one` reads.
`hypothesis := none` models a missing "hypothesis" key (the `.get` default
`""` then fires). -/
structure HypRec where
  id : Option String
  hypothesis : Option String
  initial_confidence : ConfInput
deriving DecidableEq

/-- Shape of the `confidence_min` entry of the config dict. -/
inductive CfgEntry where
  | num (q : ℚ)
  | nonNumeric
  | absent
deriving DecidableEq

/-- The config dict as read by `_evaluate_one` (only `confidence_min`). -/
structure CfgDict where
  confidence_min : CfgEntry
deriving DecidableEq

/-- A config value that may fail to be a dict at all (in which case
`cfg.get` raises inside `_evaluate_one`). -/
inductive Cfg where
  | dict (d : CfgDict)
  | nonDict
deriving DecidableEq

/-- `min_conf = _safe_float(cfg.get("confidence_min", 0.3))`: a present number
passes through; a missing key yields the 0.3 get-default; a present
non-numeric value makes `float()` raise, so `_safe_float` returns its own
default 0.0 (not 0.3). -/
def cfgConfidenceMin (c : CfgDict) : ℚ :=
  match c.confidence_min with
  | .num q => q
  | .nonNumeric => 0
  | .absent => 3/10

/-- One validated-hypothesis record as returned by `evaluator.validate`; the
`evidence := none` case models the empty evidence dict of a degraded
verdict. -/
structure Verdict where
  id : Option String
  hypothesis : String
  impact : String
  confidence : ℚ
  passed : Bool
  evidence : Option Evidence
  error : Option String
deriving DecidableEq

/-- The evidence dict embedded in a normal verdict: each field is read back
with `evidence.get(key, default)`, so an empty evidence dict produces the
all-defaults record. -/
def evidenceSnapshot : Option Evidence → Evidence
  | some e => e
  | none =>
    { last_ctr := 0, ctr_baseline := 0, ctr_delta_pct := .fin 0,
      last_roas := 0, roas_baseline := 0, roas_delta_pct := .fin 0,
      rows_used_for_baseline := 0 }

/-- `evaluator._evaluate_one` for a dict-shaped hypothesis and a dict config
(the only inputs on which it does not raise). -/
def evalOneDict (h : HypRec) (evidence : Option Evidence) (cfg : CfgDict) : Verdict :=
  let base_conf := normalizeConfidence h.initial_confidence
  let ctr_delta := match evidence with | some e => e.ctr_delta_pct | none => .fin 0
  let roas_delta := match evidence with | some e => e.roas_delta_pct | none => .fin 0
  let ctr_sev := severityFromDelta ctr_delta
  let roas_sev := severityFromDelta roas_delta
  let impact := if severityRank roas_sev ≤ severityRank ctr_sev then ctr_sev else roas_sev
  let adj_conf :=
    if ["medium", "high", "critical"].contains impact then min 1 (base_conf + 1/4)
    else if impact = "low" then min 1 (base_conf + 1/10)
    else base_conf
  let min_conf := cfgConfidenceMin cfg
  { id := h.id
    hypothesis := h.hypothesis.getD ""
    impact := impact
    confidence := pyRound4 adj_conf
    passed := decide (min_conf ≤ adj_conf)
    evidence := some (evidenceSnapshot evidence)
    error := none }

/-- A hypothesis list element: a dict, or a value that is not a dict at all
(on which `h.get` raises an AttributeError). -/
inductive PyHyp where
  | dict (h : HypRec)
  | nonDict
deriving DecidableEq

/-- `_evaluate_one` as a fallible computation: it raises exactly when the
hypothesis is not a dict (`h.get`) or the config is not a dict
(`cfg.get`). -/
def pyEvalOne (h : PyHyp) (evidence : Option Evidence) (cfg : Cfg) : Except String Verdict :=
  match h with
  | .nonDict => .error "AttributeError: object has no attribute get"
  | .dict hr =>
    match cfg with
    | .nonDict => .error "AttributeError: object has no attribute get"
    | .dict c => .ok (evalOneDict hr evidence c)

/-- The degraded verdict built in the except-branch of `evaluator.validate`. -/
def degradedVerdict (h : HypRec) (e : String) : Verdict :=
  { id := h.id, hypothesis := h.hypothesis.getD "", impact := "none",
    confidence := 0, passed := false, evidence := none, error := some e }

/-- The per-hypothesis loop of `evaluator.validate`.  The except-branch itself
evaluates `h.get("id")`, which re-raises (aborting the whole batch) when the
hypothesis is not a dict. -/
def runHyps (hyps : List PyHyp) (evidence : Option Evidence) (cfg : Cfg) :
    Except String (List Verdict) :=
  match hyps with
  | [] => .ok []
  | h :: t =>
    match pyEvalOne h evidence cfg with
    | .ok v => (runHyps t evidence cfg).map (fun vs => v :: vs)
    | .error e =>
      match h with
      | .dict hr => (runHyps t evidence cfg).map (fun vs => degradedVerdict hr e :: vs)
      | .nonDict => .error "AttributeError: object has no attribute get"

/-- One campaign record of `summary["by_campaign"]` as read by the evidence
builder (through `int(c.get(...))`). -/
structure CampaignEntry where
  impressions : ℤ
  clicks : ℤ
deriving DecidableEq

/-- The summary record as read by `evidence_from_summary_and_baseline`:
the roas values of `summary["global"]["daily_roas"]` and the campaign
records of `summary["by_campaign"]`. -/
structure Summary where
  daily_roas : List ℚ
  by_campaign : List CampaignEntry
deriving DecidableEq

/-- `last_roas`: the last entry of the daily roas series, 0.0 when the series
is empty. -/
def lastRoasOf (s : Summary) : ℚ := s.daily_roas.getLastD 0

/-- `last_ctr`: total clicks over total impressions across all campaign
records when total impressions is positive, else the 0.0 initial value. -/
def lastCtrOf (s : Summary) : ℚ :=
  let totImpr := (s.by_campaign.map (·.impressions)).sum
  let totClicks := (s.by_campaign.map (·.clicks)).sum
  if 0 < totImpr then (totClicks : ℚ) / (totImpr : ℚ) else 0

/-- `baseline._pct_delta`: 0.0 when both are zero, the positive-infinity
sentinel when only the baseline is zero, else the relative delta. -/
def pctDelta (latest baselineVal : ℚ) : EDelta :=
  if baselineVal = 0 then (if latest = 0 then .fin 0 else .inf)
  else .fin ((latest - baselineVal) / baselineVal)

/-- `d.get(k, 0.0)` on a numeric dict modelled as an association list. -/
def lookupQ (b : List (String × ℚ)) (k : String) : ℚ := (b.lookup k).getD 0

/-- Python `int()` truncation toward zero on the rationals. -/
def pyInt (q : ℚ) : ℤ := if 0 ≤ q then ⌊q⌋ else ⌈q⌉

/-- `baseline.evidence_from_summary_and_baseline`: merges the summary with a
baseline dict, reading `ctr_baseline`, `roas_baseline` and `rows_used` from
the dict with 0 defaults. -/
def evidence_from_summary_and_baseline (summary : Summary)
    (baseline : List (String × ℚ)) : Evidence :=
  { last_ctr := lastCtrOf summary
    ctr_baseline := lookupQ baseline "ctr_baseline"
    ctr_delta_pct := pctDelta (lastCtrOf summary) (lookupQ baseline "ctr_baseline")
    last_roas := lastRoasOf summary
    roas_baseline := lookupQ baseline "roas_baseline"
    roas_delta_pct := pctDelta (lastRoasOf summary) (lookupQ baseline "roas_baseline")
    rows_used_for_baseline := pyInt (lookupQ baseline "rows_used") }

/-- One row of the input dataframe after `_safe_date_index` (the claims range
over frames whose dates parsed, with the five numeric columns present); the
date is a calendar-day index. -/
structure Row where
  date : ℤ
  impressions : ℚ
  clicks : ℚ
  revenue : ℚ
  spend : ℚ
deriving DecidableEq

/-- Insert into an ascending list (ascending insertion sort step). -/
def insertAscZ (x : ℤ) : List ℤ → List ℤ
  | [] => [x]
  | y :: ys => if x ≤ y then x :: y :: ys else y :: insertAscZ x ys

/-- Ascending sort of a list of day indices. -/
def sortDates (xs : List ℤ) : List ℤ := xs.foldr insertAscZ []

/-- First-occurrence deduplication. -/
def dedupDates (xs : List ℤ) : List ℤ :=
  xs.foldl (fun acc d => if acc.contains d then acc else acc ++ [d]) []

/-- The distinct calendar days of the frame, ascending (the group keys of
`groupby(pd.Grouper(key="date", freq="D"))` that contain at least one row;
the filler days that the Grouper inserts get all-zero sums and are dropped
by the `dropna` that follows every grouping in the source). -/
def distinctDates (rows : List Row) : List ℤ := sortDates (dedupDates (rows.map (·.date)))

/-- Per-day sums of the four numeric columns. -/
structure DaySum where
  date : ℤ
  impressions : ℚ
  clicks : ℚ
  revenue : ℚ
  spend : ℚ
deriving DecidableEq

/-- Sum of a column over the rows of one day. -/
def sumBy (rows : List Row) (d : ℤ) (f : Row → ℚ) : ℚ :=
  ((rows.filter (fun r => r.date == d)).map f).sum

/-- The daily aggregate of `groupby(...).agg("sum")`, one record per distinct
day, ascending by date. -/
def dailySums (rows : List Row) : List DaySum :=
  (distinctDates rows).map (fun d =>
    { date := d, impressions := sumBy rows d (·.impressions),
      clicks := sumBy rows d (·.clicks), revenue := sumBy rows d (·.revenue),
      spend := sumBy rows d (·.spend) })

/-- A day with a valid CTR (`clicks / impressions.replace(0, nan)` then
`dropna`): the day survives iff its impressions sum is nonzero. -/
structure DayCtr where
  date : ℤ
  ctr : ℚ
deriving DecidableEq

/-- A day with a valid ROAS (spend sum nonzero). -/
structure DayRoas where
  date : ℤ
  roas : ℚ
deriving DecidableEq

/-- A day valid for both ratios (`dropna(subset=["ctr", "roas"])`). -/
structure DayBoth where
  date : ℤ
  ctr : ℚ
  roas : ℚ
deriving DecidableEq

/-- Valid-CTR days of the frame, ascending by date. -/
def ctrDaily (rows : List Row) : List DayCtr :=
  (dailySums rows).filterMap (fun d =>
    if d.impressions = 0 then none else some ⟨d.date, d.clicks / d.impressions⟩)

/-- Valid-ROAS days of the frame, ascending by date. -/
def roasDaily (rows : List Row) : List DayRoas :=
  (dailySums rows).filterMap (fun d =>
    if d.spend = 0 then none else some ⟨d.date, d.revenue / d.spend⟩)

/-- Days valid for both CTR and ROAS, ascending by date. -/
def bothDaily (rows : List Row) : List DayBoth :=
  (dailySums rows).filterMap (fun d =>
    if d.impressions = 0 ∨ d.spend = 0 then none
    else some ⟨d.date, d.clicks / d.impressions, d.revenue / d.spend⟩)

/-- Ascending insertion sort step on rationals. -/
def insertAscQ (x : ℚ) : List ℚ → List ℚ
  | [] => [x]
  | y :: ys => if x ≤ y then x :: y :: ys else y :: insertAscQ x ys

/-- Ascending sort of a list of rationals. -/
def sortQ (xs : List ℚ) : List ℚ := xs.foldr insertAscQ []

/-- `Series.mean()`: the sum over the length (our rationals make the empty
case 0/0 = 0; the source only takes means of nonempty series in the branches
the claims reach). -/
def listMean (xs : List ℚ) : ℚ := xs.sum / (xs.length : ℚ)

/-- `Series.median()`: middle element of the sorted list, or the average of
the two middle elements for even length. -/
def pdMedian (xs : List ℚ) : ℚ :=
  let s := sortQ xs
  let n := s.length
  if n = 0 then 0
  else if n % 2 = 1 then s.getD (n / 2) 0
  else (s.getD (n / 2 - 1) 0 + s.getD (n / 2) 0) / 2

/-- Population variance (the square of `std(ddof=0)`). -/
def popVar (xs : List ℚ) : ℚ := listMean (xs.map (fun x => (x - listMean xs) ^ 2))

/-- The float square root modelled on the rationals: exact when numerator and
denominator are perfect squares, which holds at every concrete input used in
this development (all relevant variances are 0). -/
def ratSqrt (q : ℚ) : ℚ :=
  if q ≤ 0 then 0 else (Nat.sqrt q.num.toNat : ℚ) / (Nat.sqrt q.den : ℚ)

/-- `Series.std(ddof=0)`. -/
def popStd (xs : List ℚ) : ℚ := ratSqrt (popVar xs)

/-- `np.percentile(arr, p)` with the default linear interpolation between
order statistics. -/
def npPercentile (xs : List ℚ) (p : ℚ) : ℚ :=
  let s := sortQ xs
  if s.isEmpty then 0
  else
    let h := ((s.length : ℚ) - 1) * p / 100
    let i := ⌊h⌋.toNat
    let lo := s.getD i 0
    let hi := s.getD (i + 1) lo
    lo + (h - (i : ℚ)) * (hi - lo)

/-- The record returned by `thresholds.compute_global_ctr_baseline` (for a
frame with the date/impressions/clicks columns present, the domain of the
claims). -/
structure CtrBaselineRec where
  baseline_ctr : ℚ
  ctr_std : ℚ
  ctr_low_threshold : ℚ
  rows_used : ℕ
deriving DecidableEq

/-- `thresholds.compute_global_ctr_baseline`: small-sample branch uses the
aggregate CTR over all rows with a `max(1e-6, baseline * 0.5)` threshold;
otherwise the trailing window's mean and population std give
`max(baseline - z*std, max(1e-6, baseline * 0.3))`. -/
def compute_global_ctr_baseline (rows : List Row) (window_days min_days : ℕ)
    (z_score : ℚ) : CtrBaselineRec :=
  let daily := ctrDaily rows
  let rows_used := daily.length
  if rows_used < min_days then
    let aggImpr := (rows.map (·.impressions)).sum
    let aggClicks := (rows.map (·.clicks)).sum
    let baseline := if 0 < aggImpr then aggClicks / aggImpr else 0
    { baseline_ctr := baseline, ctr_std := 0,
      ctr_low_threshold := max (1/1000000) (baseline * (1/2)), rows_used := rows_used }
  else
    let maxDate := (daily.map (·.date)).max?.getD 0
    let window := if window_days < rows_used
      then daily.filter (fun d => decide (maxDate - (window_days : ℤ) < d.date))
      else daily
    let baseline := listMean (window.map (·.ctr))
    let std := if 1 < window.length then popStd (window.map (·.ctr)) else 0
    let threshold := max (baseline - z_score * std) (max (1/1000000) (baseline * (3/10)))
    { baseline_ctr := baseline, ctr_std := std,
      ctr_low_threshold := threshold, rows_used := rows_used }

/-- The day-over-day drop series of `compute_roas_drop_threshold`:
`(prev - cur) / prev` over consecutive valid-ROAS days with `prev != 0`
(the `shift`/`replace(0, nan)`/`dropna` chain), keeping only the strictly
positive drops. -/
def positiveDrops (rs : List ℚ) : List ℚ :=
  ((rs.zip rs.tail).filterMap (fun p =>
    if p.1 = 0 then none else some ((p.1 - p.2) / p.1))).filter
    (fun d => decide (0 < d))

/-- `thresholds.compute_roas_drop_threshold` (columns present): returns the
dict `{median_drop, drop_std, roas_drop_threshold, rows_used}`.  Note: the
source accepts a `window_days` parameter but never restricts to a window; the
drop series ranges over all valid days. -/
def compute_roas_drop_threshold (rows : List Row) (window_days min_days : ℕ)
    (z_score min_threshold : ℚ) : List (String × ℚ) :=
  let _ := window_days
  let daily := roasDaily rows
  let rows_used := daily.length
  if rows_used < min_days then
    [("median_drop", 0), ("drop_std", 0), ("roas_drop_threshold", min_threshold),
     ("rows_used", (rows_used : ℚ))]
  else
    let drops := positiveDrops (daily.map (·.roas))
    if drops.isEmpty then
      [("median_drop", 0), ("drop_std", 0), ("roas_drop_threshold", min_threshold),
       ("rows_used", (rows_used : ℚ))]
    else
      let median_drop := pdMedian drops
      let drop_std := if 1 < drops.length then popStd drops else 0
      let threshold := max (median_drop + z_score * drop_std) min_threshold
      [("median_drop", median_drop), ("drop_std", drop_std),
       ("roas_drop_threshold", threshold), ("rows_used", (rows_used : ℚ))]

/-- The record returned by `baseline.compute_global_baselines` (date column
present). -/
structure BaselineRec where
  ctr_baseline : ℚ
  ctr_pctile_10 : ℚ
  ctr_pctile_90 : ℚ
  roas_baseline : ℚ
  roas_pctile_10 : ℚ
  roas_pctile_90 : ℚ
  rows_used : ℕ
deriving DecidableEq

/-- `_safe_stats`: (0,0,0) on an empty series, else mean and 10th/90th
percentiles. -/
def safeStats (arr : List ℚ) : ℚ × ℚ × ℚ :=
  if arr.isEmpty then (0, 0, 0)
  else (listMean arr, npPercentile arr 10, npPercentile arr 90)

/-- `baseline.compute_global_baselines`: daily aggregation, both-ratios
validity, trailing-window restriction when more than `window_days` valid days
exist, then mean/percentiles.  There is no `min_days` parameter and no
small-sample fallback in the source. -/
def compute_global_baselines (rows : List Row) (window_days : ℕ) : BaselineRec :=
  let daily := bothDaily rows
  let rows_used := daily.length
  if rows_used = 0 then
    { ctr_baseline := 0, ctr_pctile_10 := 0, ctr_pctile_90 := 0,
      roas_baseline := 0, roas_pctile_10 := 0, roas_pctile_90 := 0, rows_used := 0 }
  else
    let maxDate := (daily.map (·.date)).max?.getD 0
    let window := if window_days < rows_used
      then daily.filter (fun d => decide (maxDate - (window_days : ℤ) < d.date))
      else daily
    let cs := safeStats (window.map (·.ctr))
    let rs := safeStats (window.map (·.roas))
    { ctr_baseline := cs.1, ctr_pctile_10 := cs.2.1, ctr_pctile_90 := cs.2.2,
      roas_baseline := rs.1, roas_pctile_10 := rs.2.1, roas_pctile_90 := rs.2.2,
      rows_used := rows_used }

/-- The combined record of `thresholds.compute_dynamic_thresholds`; its
`roas_baseline` entry is the whole roas-drop dict. -/
structure DynamicThresholds where
  ctr_baseline : CtrBaselineRec
  roas_baseline : List (String × ℚ)
  ctr_low_threshold : ℚ
  roas_drop_threshold : ℚ
  rows_used : ℚ
deriving DecidableEq

/-- `thresholds.compute_dynamic_thresholds` (min_threshold left at its 0.08
default by this call site). -/
def compute_dynamic_thresholds (rows : List Row) (window_days min_days : ℕ)
    (ctr_z roas_z : ℚ) : DynamicThresholds :=
  let ctr := compute_global_ctr_baseline rows window_days min_days ctr_z
  let roas := compute_roas_drop_threshold rows window_days min_days roas_z (8/100)
  { ctr_baseline := ctr
    roas_baseline := roas
    ctr_low_threshold := ctr.ctr_low_threshold
    roas_drop_threshold := lookupQ roas "roas_drop_threshold"
    rows_used := max (ctr.rows_used : ℚ) (lookupQ roas "rows_used") }

/-- The batch metrics record of `evaluator.validate`. -/
structure Metrics where
  validation_rate : ℚ
  num_hypotheses : ℕ
  num_passed : ℕ
  ctr_baseline : ℚ
  roas_baseline : ℚ
deriving DecidableEq

/-- The record `validate` selects as its "baseline":
`compute_dynamic_thresholds(df)["roas_baseline"]`, i.e. the roas-drop dict
(defaults: window 30, min_days 7, ctr_z 1.5, roas_z 1.0). -/
def validateBaselineRecord (rows : List Row) : List (String × ℚ) :=
  (compute_dynamic_thresholds rows 30 7 (3/2) 1).roas_baseline

/-- The `baseline` local of `validate`: the roas-drop dict when a frame is
given (`compute_dynamic_thresholds(df).get("roas_baseline") or {}`; the dict
is never empty, so the `or {}` fallback is inert), else the empty dict
(`dynamic = {}` when `df is None`). -/
def validateBaseline (df : Option (List Row)) : List (String × ℚ) :=
  match df with
  | some rows => validateBaselineRecord rows
  | none => []

/-- The `evidence` local of `validate`: built from summary and baseline when
the baseline dict is truthy (non-empty), else the empty dict. -/
def validateEvidence (summary : Summary) (df : Option (List Row)) : Option Evidence :=
  if (validateBaseline df).isEmpty then none
  else some (evidence_from_summary_and_baseline summary (validateBaseline df))

/-- `evaluator.validate`: computes the baseline dict from the frame when one
is given, builds the evidence when that dict is truthy, evaluates every
hypothesis with per-item exception recovery, and reports batch metrics.
An uncaught exception (non-dict hypothesis, see `runHyps`) propagates. -/
def validate (hyps : List PyHyp) (summary : Summary) (cfg : Cfg)
    (df : Option (List Row)) : Except String (List Verdict × Metrics) :=
  match runHyps hyps (validateEvidence summary df) cfg with
  | .error e => .error e
  | .ok validated =>
    let numPassed := (validated.filter (·.passed)).length
    .ok (validated,
      { validation_rate := (numPassed : ℚ) / ((max 1 validated.length : ℕ) : ℚ)
        num_hypotheses := validated.length
        num_passed := numPassed
        ctr_baseline := lookupQ (validateBaseline df) "ctr_baseline"
        roas_baseline := lookupQ (validateBaseline df) "roas_baseline" })

/-- The spec's step-4 confidence adjustment, stated from the claim's words
(clamped base plus 0.25 for medium/high/critical impact, plus 0.10 for low,
unchanged for none, re-clamped to `[0,1]`), for comparison with
`evalOneDict`. -/
def specAdjustedConfidence (base : ℚ) (impact : String) : ℚ :=
  if impact = "medium" ∨ impact = "high" ∨ impact = "critical" then
    max 0 (min 1 (base + 1/4))
  else if impact = "low" then max 0 (min 1 (base + 1/10))
  else base

/-- The aggregate CTR (ratio of summed totals over all rows), as the claims
on the small-sample branches describe it. -/
def specAggregateCtr (rows : List Row) : ℚ :=
  let imp := (rows.map (·.impressions)).sum
  if 0 < imp then (rows.map (·.clicks)).sum / imp else 0

/-- Modelled from the spec's words (design §4.3): the ROAS drop-threshold
computation with the Baseline Estimator's trailing-window restriction
applied, as claim C7 describes it; for comparison with
`compute_roas_drop_threshold`, which has no window restriction. -/
def specRoasDropThreshold (rows : List Row) (window_days min_days : ℕ)
    (z_score min_threshold : ℚ) : ℚ :=
  let daily := roasDaily rows
  let rows_used := daily.length
  if rows_used < min_days then min_threshold
  else
    let maxDate := (daily.map (·.date)).max?.getD 0
    let window := if window_days < rows_used
      then daily.filter (fun d => decide (maxDate - (window_days : ℤ) < d.date))
      else daily
    let drops := positiveDrops (window.map (·.roas))
    if drops.isEmpty then min_threshold
    else max (pdMedian drops
      + z_score * (if 1 < drops.length then popStd drops else 0)) min_threshold

/-- A well-formed hypothesis used as a concrete input. -/
def hypBasic : HypRec := { id := some "h1", hypothesis := some "roas declined", initial_confidence := .num (1/2) }

/-- A config dict without a `confidence_min` entry (so the 0.3 default fires). -/
def cfgBasic : CfgDict := { confidence_min := .absent }

/-- An all-defaults evidence record used as a concrete input. -/
def evBase : Evidence :=
  { last_ctr := 0, ctr_baseline := 0, ctr_delta_pct := .fin 0,
    last_roas := 0, roas_baseline := 0, roas_delta_pct := .fin 0,
    rows_used_for_baseline := 0 }

/-- The impact selection of `_evaluate_one` (stronger of the two severities,
CTR winning ties). -/
def impactOf (cd rd : EDelta) : String :=
  if severityRank (severityFromDelta rd) ≤ severityRank (severityFromDelta cd)
  then severityFromDelta cd else severityFromDelta rd

/-- The let-bound `adj_conf` expression of `_evaluate_one`, factored out. -/
def codeAdjustedConf (base : ℚ) (impact : String) : ℚ :=
  if ["medium", "high", "critical"].contains impact then min 1 (base + 1/4)
  else if impact = "low" then min 1 (base + 1/10)
  else base

/-- An empty summary used as a concrete input. -/
def summaryEmpty : Summary := { daily_roas := [], by_campaign := [] }

/-- A one-row frame (one valid day for both ratios). -/
def rowsOne : List Row := [{ date := 0, impressions := 10, clicks := 1, revenue := 1, spend := 1 }]

/-- A summary whose latest daily roas is 2 and with no campaign records. -/
def summaryDaily : Summary := { daily_roas := [2], by_campaign := [] }

/-- A frame whose only day has zero impressions (so no valid-CTR day and a
zero aggregate CTR). -/
def rowsZeroImp : List Row := [{ date := 0, impressions := 0, clicks := 5, revenue := 1, spend := 1 }]

/-- A two-day frame with unequal per-day CTRs (0.1 and 0.01). -/
def rowsTwo : List Row :=
  [{ date := 0, impressions := 10, clicks := 1, revenue := 1, spend := 1 },
   { date := 1, impressions := 100, clicks := 1, revenue := 1, spend := 1 }]

/-- A seven-day frame whose daily ROAS alternates 10, 5, 10, 5, 10, 5, 10. -/
def rows7 : List Row :=
  [{ date := 1, impressions := 1, clicks := 1, revenue := 10, spend := 1 },
   { date := 2, impressions := 1, clicks := 1, revenue := 5, spend := 1 },
   { date := 3, impressions := 1, clicks := 1, revenue := 10, spend := 1 },
   { date := 4, impressions := 1, clicks := 1, revenue := 5, spend := 1 },
   { date := 5, impressions := 1, clicks := 1, revenue := 10, spend := 1 },
   { date := 6, impressions := 1, clicks := 1, revenue := 5, spend := 1 },
   { date := 7, impressions := 1, clicks := 1, revenue := 10, spend := 1 }]
theorem normalizeConfidence_bounds (ci : ConfInput) :
    0 ≤ normalizeConfidence ci ∧ normalizeConfidence ci ≤ 1 := by
  cases ci with
  | num q => exact ⟨le_max_left 0 _, max_le (by norm_num) (min_le_left 1 _)⟩
  | nan => exact ⟨le_refl 0, zero_le_one⟩
  | nonNumeric => exact ⟨le_refl 0, zero_le_one⟩
  | absent => exact ⟨le_refl 0, zero_le_one⟩

theorem pyRound4_bounds {q : ℚ} (h0 : 0 ≤ q) (h1 : q ≤ 1) :
    0 ≤ pyRound4 q ∧ pyRound4 q ≤ 1 := by
  simp only [pyRound4]
  have hs0 : (0 : ℚ) ≤ q * 10000 := by positivity
  have hs1 : q * 10000 ≤ 10000 := by nlinarith
  have hn0 : (0 : ℤ) ≤ ⌊q * 10000⌋ := Int.floor_nonneg.mpr hs0
  have hnle : ((⌊q * 10000⌋ : ℤ) : ℚ) ≤ q * 10000 := Int.floor_le _
  have hn1 : ⌊q * 10000⌋ ≤ 10000 := by
    have h2 : ⌊q * 10000⌋ < 10001 := by
      rw [Int.floor_lt]
      push_cast
      linarith
    omega
  have hcast : ((⌊q * 10000⌋ : ℤ) : ℚ) ≤ 10000 := by exact_mod_cast hn1
  split_ifs with hf1 hf2 hpar
  · constructor
    · positivity
    · rw [div_le_one (by norm_num)]
      linarith
  · have hlt : ⌊q * 10000⌋ < 10000 := by
      by_contra hcon
      push_neg at hcon
      have : ⌊q * 10000⌋ = 10000 := le_antisymm hn1 hcon
      rw [this] at hf2
      push_cast at hf2
      linarith
    constructor
    · positivity
    · rw [div_le_one (by norm_num)]
      push_cast
      have : ⌊q * 10000⌋ + 1 ≤ 10000 := by omega
      exact_mod_cast this
  · constructor
    · positivity
    · rw [div_le_one (by norm_num)]
      linarith
  · have hfr : q * 10000 - ((⌊q * 10000⌋ : ℤ) : ℚ) = 1/2 := le_antisymm (not_lt.mp hf2) (not_lt.mp hf1)
    have hlt : ⌊q * 10000⌋ < 10000 := by
      by_contra hcon
      push_neg at hcon
      have heq : ⌊q * 10000⌋ = 10000 := le_antisymm hn1 hcon
      rw [heq] at hfr
      push_cast at hfr
      linarith
    constructor
    · positivity
    · rw [div_le_one (by norm_num)]
      push_cast
      have : ⌊q * 10000⌋ + 1 ≤ 10000 := by omega
      exact_mod_cast this

theorem evalOneDict_impact (h : HypRec) (e : Evidence) (c : CfgDict) :
    (evalOneDict h (some e) c).impact = impactOf e.ctr_delta_pct e.roas_delta_pct := rfl

/-- Canonical form of `evalOneDict`: the whole verdict record with the
let-chain written through the factored helpers. -/
theorem evalOneDict_eq (h : HypRec) (ev : Option Evidence) (c : CfgDict) :
    evalOneDict h ev c =
      { id := h.id
        hypothesis := h.hypothesis.getD ""
        impact := impactOf (evidenceSnapshot ev).ctr_delta_pct (evidenceSnapshot ev).roas_delta_pct
        confidence := pyRound4 (codeAdjustedConf (normalizeConfidence h.initial_confidence)
          (impactOf (evidenceSnapshot ev).ctr_delta_pct (evidenceSnapshot ev).roas_delta_pct))
        passed := decide (cfgConfidenceMin c ≤ codeAdjustedConf (normalizeConfidence h.initial_confidence)
          (impactOf (evidenceSnapshot ev).ctr_delta_pct (evidenceSnapshot ev).roas_delta_pct))
        evidence := some (evidenceSnapshot ev)
        error := none } := by
  cases ev <;> rfl

theorem sevFin0 : severityFromDelta (EDelta.fin 0) = "none" := by
  norm_num [severityFromDelta]

theorem sevFinHalfNeg : severityFromDelta (EDelta.fin (-(1/2))) = "high" := by
  norm_num [severityFromDelta]

theorem severityRank_impactOf (cd rd : EDelta) :
    severityRank (impactOf cd rd)
      = max (severityRank (severityFromDelta cd)) (severityRank (severityFromDelta rd)) := by
  unfold impactOf
  split_ifs with h
  · exact (max_eq_left h).symm
  · exact (max_eq_right (le_of_not_le h)).symm

theorem severityRank_fin_antitone {a b : ℚ} (h : a ≤ b) :
    severityRank (severityFromDelta (.fin b)) ≤ severityRank (severityFromDelta (.fin a)) := by
  simp only [severityFromDelta]
  split_ifs <;> first | decide | linarith

theorem severityRank_le_four (d : EDelta) : severityRank (severityFromDelta d) ≤ 4 := by
  cases d with
  | inf => decide
  | fin q =>
    simp only [severityFromDelta]
    split_ifs <;> decide

/-- C1.  Counterexample to the claimed break points: the claim says a finite
delta below −0.40 classifies as critical, but `_severity_from_delta` returns
"high" at −0.5 (the whole finite ladder sits one tier lower than claimed). -/
theorem c1_counterexample :
    severityFromDelta (EDelta.fin (-(1/2))) = "high" ∧ ("high" : String) ≠ "critical" := by
  constructor
  · norm_num [severityFromDelta]
  · decide

/-- C1 (amended).  The infinity sentinel classifies as critical; a finite
delta below −0.40 as high; in [−0.40, −0.20) as medium; in [−0.20, −0.05) as
low; and at or above −0.05 as none. -/
theorem c1_severity_amended (q : ℚ) :
    severityFromDelta EDelta.inf = "critical"
    ∧ (q < -(2/5) → severityFromDelta (EDelta.fin q) = "high")
    ∧ (-(2/5) ≤ q → q < -(1/5) → severityFromDelta (EDelta.fin q) = "medium")
    ∧ (-(1/5) ≤ q → q < -(1/20) → severityFromDelta (EDelta.fin q) = "low")
    ∧ (-(1/20) ≤ q → severityFromDelta (EDelta.fin q) = "none") := by
  refine ⟨rfl, ?_, ?_, ?_, ?_⟩ <;>
    (intro h1
     try intro h2) <;>
  · simp only [severityFromDelta]
    split_ifs <;> first | rfl | linarith

theorem c1_severity_amended_witness :
    severityFromDelta (EDelta.fin (-(1/2))) = "high"
    ∧ severityFromDelta (EDelta.fin (-(3/10))) = "medium"
    ∧ severityFromDelta (EDelta.fin (-(1/10))) = "low"
    ∧ severityFromDelta (EDelta.fin 0) = "none" :=
  ⟨(c1_severity_amended (-(1/2))).2.1 (by norm_num),
   (c1_severity_amended (-(3/10))).2.2.1 (by norm_num) (by norm_num),
   (c1_severity_amended (-(1/10))).2.2.2.1 (by norm_num) (by norm_num),
   (c1_severity_amended 0).2.2.2.2 (by norm_num)⟩

/-- C10.  Counterexample: the evidence builder's infinity sentinel is the
float `+inf`, which is greater than every finite delta, yet classifies as
critical.  With equal CTR deltas, roas delta −0.5 is less than +inf but
yields impact "high", strictly less severe than the "critical" yielded by
+inf — so a more negative delta CAN yield a less severe impact when the
sentinel is in range. -/
theorem c10_counterexample :
    edeltaLt (EDelta.fin (-(1/2))) EDelta.inf = true
    ∧ (evalOneDict hypBasic (some { evBase with roas_delta_pct := EDelta.fin (-(1/2)) }) cfgBasic).impact = "high"
    ∧ (evalOneDict hypBasic (some { evBase with roas_delta_pct := EDelta.inf }) cfgBasic).impact = "critical"
    ∧ severityRank "high" < severityRank "critical" := by
  refine ⟨rfl, ?_, ?_, by decide⟩
  · rw [evalOneDict_impact]
    show impactOf (EDelta.fin 0) (EDelta.fin (-(1/2))) = "high"
    unfold impactOf
    rw [sevFin0, sevFinHalfNeg]
    decide
  · rw [evalOneDict_impact]
    show impactOf (EDelta.fin 0) EDelta.inf = "critical"
    unfold impactOf
    rw [sevFin0]
    decide

/-- C10 (amended).  Restricted to finite deltas the claimed monotonicity
holds: with all other evidence fields fixed, a more negative roas delta never
yields a less severe impact; and the sentinel always yields an impact at
least as severe as any finite delta (it is the most adverse value, even
though as a float it is the greatest). -/
theorem c10_monotonicity_amended (h : HypRec) (c : CfgDict) (ev : Evidence)
    (d₁ d₂ : ℚ) (hlt : d₁ < d₂) :
    severityRank (evalOneDict h (some { ev with roas_delta_pct := EDelta.fin d₂ }) c).impact
      ≤ severityRank (evalOneDict h (some { ev with roas_delta_pct := EDelta.fin d₁ }) c).impact
    ∧ severityRank (evalOneDict h (some { ev with roas_delta_pct := EDelta.fin d₁ }) c).impact
      ≤ severityRank (evalOneDict h (some { ev with roas_delta_pct := EDelta.inf }) c).impact := by
  rw [evalOneDict_impact, evalOneDict_impact, evalOneDict_impact]
  simp only [severityRank_impactOf]
  constructor
  · exact max_le_max (le_refl _) (severityRank_fin_antitone hlt.le)
  · refine max_le_max (le_refl _) ?_
    have h4 := severityRank_le_four (EDelta.fin d₁)
    have : severityRank (severityFromDelta EDelta.inf) = 4 := by decide
    omega

theorem c10_monotonicity_amended_witness :
    severityRank (evalOneDict hypBasic (some { evBase with roas_delta_pct := EDelta.fin (-(1/10)) }) cfgBasic).impact
      ≤ severityRank (evalOneDict hypBasic (some { evBase with roas_delta_pct := EDelta.fin (-(3/10)) }) cfgBasic).impact :=
  (c10_monotonicity_amended hypBasic cfgBasic evBase (-(3/10)) (-(1/10)) (by norm_num)).1

theorem contains_mhc_iff (s : String) :
    (["medium", "high", "critical"].contains s = true)
      ↔ (s = "medium" ∨ s = "high" ∨ s = "critical") := by
  simp [List.contains]

theorem adjConf_eq_spec (base : ℚ) (hb : 0 ≤ base) (impact : String) :
    codeAdjustedConf base impact = specAdjustedConfidence base impact := by
  unfold codeAdjustedConf specAdjustedConfidence
  by_cases hc : ["medium", "high", "critical"].contains impact
  · rw [if_pos hc, if_pos ((contains_mhc_iff impact).mp hc)]
    rw [max_eq_right (le_min (by norm_num) (by linarith))]
  · have hnot := hc
    rw [if_neg hc]
    have hd : ¬ (impact = "medium" ∨ impact = "high" ∨ impact = "critical") := by
      intro hcontra
      exact hnot ((contains_mhc_iff impact).mpr hcontra)
    rw [if_neg hd]
    split_ifs with hl
    · rw [max_eq_right (le_min (by norm_num) (by linarith))]
    · rfl

/-- C4.  Counterexample to "the emitted Verdict's confidence field equals
exactly this adjusted value": the source rounds to 4 decimal places.  With
initial confidence 0.12341 and impact "none" the adjusted value is 0.12341
but the verdict's confidence is 0.1234. -/
theorem c4_counterexample :
    (evalOneDict { id := some "h1", hypothesis := some "t", initial_confidence := .num (12341/100000) } none cfgBasic).impact = "none"
    ∧ specAdjustedConfidence (normalizeConfidence (ConfInput.num (12341/100000))) "none" = 12341/100000
    ∧ (evalOneDict { id := some "h1", hypothesis := some "t", initial_confidence := .num (12341/100000) } none cfgBasic).confidence = 617/5000
    ∧ (617/5000 : ℚ) ≠ 12341/100000 := by
  have himp : impactOf (EDelta.fin 0) (EDelta.fin 0) = "none" := by
    unfold impactOf
    rw [sevFin0]
    decide
  have hm : normalizeConfidence (ConfInput.num (12341/100000)) = 12341/100000 := by
    show max (0:ℚ) (min 1 (12341/100000)) = 12341/100000
    rw [min_eq_right (by norm_num), max_eq_right (by norm_num)]
  have hspec : specAdjustedConfidence (normalizeConfidence (ConfInput.num (12341/100000))) "none" = 12341/100000 := by
    rw [hm]
    unfold specAdjustedConfidence
    rw [if_neg (by decide), if_neg (by decide)]
  have hround : pyRound4 (12341/100000) = 617/5000 := by
    have hfl : ⌊(12341 : ℚ)/100000 * 10000⌋ = 1234 := by
      norm_num [Int.floor_eq_iff]
    norm_num [pyRound4, hfl]
  refine ⟨?_, hspec, ?_, by norm_num⟩
  · rw [evalOneDict_eq]
    exact himp
  · rw [evalOneDict_eq]
    show pyRound4 (codeAdjustedConf (normalizeConfidence (ConfInput.num (12341/100000)))
      (impactOf (EDelta.fin 0) (EDelta.fin 0))) = 617/5000
    rw [himp]
    rw [adjConf_eq_spec _ (by rw [hm]; norm_num) _, hspec, hround]

/-- C4 (amended).  The verdict's confidence equals the spec's adjusted
confidence ROUNDED TO 4 DECIMAL PLACES (not the exact adjusted value);
`passed` compares the unrounded adjusted value against the configured
minimum, whose default in this evaluator is 0.3. -/
theorem c4_confidence_amended (h : HypRec) (ev : Option Evidence) (c : CfgDict) :
    (evalOneDict h ev c).confidence
      = pyRound4 (specAdjustedConfidence (normalizeConfidence h.initial_confidence)
          (evalOneDict h ev c).impact)
    ∧ ((evalOneDict h ev c).passed = true
        ↔ cfgConfidenceMin c ≤ specAdjustedConfidence (normalizeConfidence h.initial_confidence)
            (evalOneDict h ev c).impact)
    ∧ cfgConfidenceMin { confidence_min := .absent } = 3/10 := by
  have hb := (normalizeConfidence_bounds h.initial_confidence).1
  rw [evalOneDict_eq]
  have hadj := adjConf_eq_spec (normalizeConfidence h.initial_confidence) hb
    (impactOf (evidenceSnapshot ev).ctr_delta_pct (evidenceSnapshot ev).roas_delta_pct)
  refine ⟨?_, ?_, rfl⟩
  · rw [hadj]
  · rw [decide_eq_true_iff, hadj]

/-- C2 (amended).  Every numeric field of the evidence record other than the
two delta fields is an ordinary finite number by construction; a delta field
equals the non-finite +Infinity sentinel exactly when its baseline is 0 and
the latest value is nonzero, and in that case the sentinel is embedded
unchanged (not mapped to a bounded value) in the verdict's evidence. -/
theorem c2_finiteness_amended (s : Summary) (b : List (String × ℚ)) (h : HypRec) (c : CfgDict) :
    ((evidence_from_summary_and_baseline s b).ctr_delta_pct = EDelta.inf
      ↔ (lookupQ b "ctr_baseline" = 0 ∧ lastCtrOf s ≠ 0))
    ∧ ((evidence_from_summary_and_baseline s b).roas_delta_pct = EDelta.inf
      ↔ (lookupQ b "roas_baseline" = 0 ∧ lastRoasOf s ≠ 0))
    ∧ (evalOneDict h (some (evidence_from_summary_and_baseline s b)) c).evidence
        = some (evidence_from_summary_and_baseline s b) := by
  refine ⟨?_, ?_, rfl⟩ <;>
  · show pctDelta _ _ = EDelta.inf ↔ _
    unfold pctDelta
    split_ifs with h1 h2
    · simp [h1, h2]
    · simp [h1, h2]
    · simp [h1]

theorem codeAdjustedConf_bounds {base : ℚ} (h0 : 0 ≤ base) (h1 : base ≤ 1) (impact : String) :
    0 ≤ codeAdjustedConf base impact ∧ codeAdjustedConf base impact ≤ 1 := by
  unfold codeAdjustedConf
  split_ifs
  · exact ⟨le_min (by norm_num) (by linarith), min_le_left _ _⟩
  · exact ⟨le_min (by norm_num) (by linarith), min_le_left _ _⟩
  · exact ⟨h0, h1⟩

theorem evalOneDict_conf_bounds (h : HypRec) (ev : Option Evidence) (c : CfgDict) :
    0 ≤ (evalOneDict h ev c).confidence ∧ (evalOneDict h ev c).confidence ≤ 1 := by
  rw [evalOneDict_eq]
  have hb := normalizeConfidence_bounds h.initial_confidence
  have hc := codeAdjustedConf_bounds hb.1 hb.2
    (impactOf (evidenceSnapshot ev).ctr_delta_pct (evidenceSnapshot ev).roas_delta_pct)
  exact pyRound4_bounds hc.1 hc.2

theorem runHyps_ok_bounds (hyps : List PyHyp) :
    ∀ (ev : Option Evidence) (cfg : Cfg) (vs : List Verdict),
      runHyps hyps ev cfg = .ok vs → ∀ v ∈ vs, 0 ≤ v.confidence ∧ v.confidence ≤ 1 := by
  induction hyps with
  | nil =>
    intro ev cfg vs hok v hv
    simp only [runHyps] at hok
    injection hok with hok1
    subst hok1
    cases hv
  | cons hh t ih =>
    intro ev cfg vs hok v hv
    simp only [runHyps] at hok
    cases hpe : pyEvalOne hh ev cfg with
    | ok v1 =>
      rw [hpe] at hok
      cases hrt : runHyps t ev cfg with
      | error e2 =>
        rw [hrt] at hok
        simp [Except.map] at hok
      | ok vs' =>
        rw [hrt] at hok
        simp only [Except.map] at hok
        injection hok with hok1
        subst hok1
        rcases List.mem_cons.mp hv with hv1 | hv2
        · subst hv1
          cases hh with
          | nonDict => simp [pyEvalOne] at hpe
          | dict hr =>
            cases cfg with
            | nonDict => simp [pyEvalOne] at hpe
            | dict cd =>
              simp only [pyEvalOne] at hpe
              injection hpe with hpe1
              rw [← hpe1]
              exact evalOneDict_conf_bounds hr ev cd
        · exact ih ev cfg vs' hrt v hv2
    | error e =>
      rw [hpe] at hok
      cases hh with
      | nonDict => simp at hok
      | dict hr =>
        cases hrt : runHyps t ev cfg with
        | error e2 =>
          rw [hrt] at hok
          simp [Except.map] at hok
        | ok vs' =>
          rw [hrt] at hok
          simp only [Except.map] at hok
          injection hok with hok1
          subst hok1
          rcases List.mem_cons.mp hv with hv1 | hv2
          · subst hv1
            exact ⟨le_refl 0, zero_le_one⟩
          · exact ih ev cfg vs' hrt v hv2

theorem validate_ok_parts {hyps : List PyHyp} {summary : Summary} {cfg : Cfg}
    {df : Option (List Row)} {vs : List Verdict} {m : Metrics}
    (hok : validate hyps summary cfg df = .ok (vs, m)) :
    runHyps hyps (validateEvidence summary df) cfg = .ok vs
    ∧ m.ctr_baseline = lookupQ (validateBaseline df) "ctr_baseline"
    ∧ m.roas_baseline = lookupQ (validateBaseline df) "roas_baseline"
    ∧ m.num_hypotheses = vs.length := by
  unfold validate at hok
  cases hrun : runHyps hyps (validateEvidence summary df) cfg with
  | error e =>
    rw [hrun] at hok
    simp at hok
  | ok validated =>
    rw [hrun] at hok
    simp only at hok
    injection hok with hok1
    injection hok1 with hv hm
    subst hv
    subst hm
    exact ⟨rfl, rfl, rfl, rfl⟩

/-- C5.  For every batch, summary, config and frame, every verdict that
`validate` emits has its confidence in the closed interval [0,1], whatever
shape the hypothesis's `initial_confidence` had (missing, None, non-numeric,
NaN, or out-of-range numbers — all shapes `ConfInput` covers). -/
theorem c5_confidence_bounds (hyps : List PyHyp) (summary : Summary) (cfg : Cfg)
    (df : Option (List Row)) (vs : List Verdict) (m : Metrics) (v : Verdict)
    (hok : validate hyps summary cfg df = .ok (vs, m)) (hv : v ∈ vs) :
    0 ≤ v.confidence ∧ v.confidence ≤ 1 :=
  runHyps_ok_bounds hyps (validateEvidence summary df) cfg vs (validate_ok_parts hok).1 v hv

theorem c5_confidence_bounds_witness :
    0 ≤ (degradedVerdict hypBasic "AttributeError: object has no attribute get").confidence
    ∧ (degradedVerdict hypBasic "AttributeError: object has no attribute get").confidence ≤ 1 :=
  c5_confidence_bounds [PyHyp.dict hypBasic] summaryEmpty Cfg.nonDict none
    [degradedVerdict hypBasic "AttributeError: object has no attribute get"]
    { validation_rate := 0, num_hypotheses := 1, num_passed := 0,
      ctr_baseline := 0, roas_baseline := 0 }
    (degradedVerdict hypBasic "AttributeError: object has no attribute get")
    (by simp [validate, validateBaseline, validateEvidence, runHyps, pyEvalOne,
          degradedVerdict, lookupQ, hypBasic, Except.map, List.filter])
    (by simp)

/-- C9.  The claim (one verdict per hypothesis, exceptions isolated to the
failing hypothesis) matches the evident intent of the per-hypothesis
try/except, and it holds when the failing hypothesis is a dict (first
conjunct: a raising config still yields a degraded verdict and the batch
completes).  But the except-branch itself calls `h.get("id")`, so a
hypothesis that is not a dict re-raises inside the handler and aborts the
whole batch with zero verdicts (second conjunct) — contradicting the claim. -/
theorem c9_fault_isolation_bug :
    validate [PyHyp.dict hypBasic] summaryEmpty Cfg.nonDict none
      = .ok ([degradedVerdict hypBasic "AttributeError: object has no attribute get"],
          { validation_rate := 0, num_hypotheses := 1, num_passed := 0,
            ctr_baseline := 0, roas_baseline := 0 })
    ∧ validate [PyHyp.nonDict, PyHyp.dict hypBasic] summaryEmpty (Cfg.dict cfgBasic) none
      = .error "AttributeError: object has no attribute get" := by
  constructor <;>
    simp [validate, validateBaseline, validateEvidence, runHyps, pyEvalOne,
      degradedVerdict, lookupQ, hypBasic, Except.map, List.filter]

theorem roas_record_keys (rows : List Row) (w m : ℕ) (z t : ℚ) :
    (compute_roas_drop_threshold rows w m z t).map Prod.fst
      = ["median_drop", "drop_std", "roas_drop_threshold", "rows_used"] := by
  simp only [compute_roas_drop_threshold]
  split_ifs <;> rfl

theorem roas_record_lookup_ctr (rows : List Row) (w m : ℕ) (z t : ℚ) :
    (compute_roas_drop_threshold rows w m z t).lookup "ctr_baseline" = none := by
  simp only [compute_roas_drop_threshold]
  split_ifs <;> rfl

theorem roas_record_lookup_roas (rows : List Row) (w m : ℕ) (z t : ℚ) :
    (compute_roas_drop_threshold rows w m z t).lookup "roas_baseline" = none := by
  simp only [compute_roas_drop_threshold]
  split_ifs <;> rfl

theorem validateBaselineRecord_eq (rows : List Row) :
    validateBaselineRecord rows = compute_roas_drop_threshold rows 30 7 1 (8/100) := rfl

theorem validateBaselineRecord_isEmpty (rows : List Row) :
    (validateBaselineRecord rows).isEmpty = false := by
  have hk := roas_record_keys rows 30 7 1 (8/100)
  rw [validateBaselineRecord_eq]
  cases h : compute_roas_drop_threshold rows 30 7 1 (8/100) with
  | nil =>
    rw [h] at hk
    simp at hk
  | cons a l => rfl

theorem validateEvidence_some (s : Summary) (rows : List Row) :
    validateEvidence s (some rows)
      = some (evidence_from_summary_and_baseline s (validateBaselineRecord rows)) := by
  unfold validateEvidence
  have hne : (validateBaseline (some rows)).isEmpty = false := validateBaselineRecord_isEmpty rows
  rw [show validateBaseline (some rows) = validateBaselineRecord rows from rfl] at hne ⊢
  rw [hne]
  rfl

theorem pctDelta_zero_baseline (l : ℚ) :
    pctDelta l 0 = EDelta.fin 0 ∨ pctDelta l 0 = EDelta.inf := by
  unfold pctDelta
  rw [if_pos rfl]
  by_cases hl : l = 0
  · left
    rw [if_pos hl]
  · right
    rw [if_neg hl]

/-- C3.  When `validate` receives a frame, the record it treats as the
"baseline" is the roas-drop dict of `compute_dynamic_thresholds` (keys
median_drop / drop_std / roas_drop_threshold / rows_used), which has no
`ctr_baseline` or `roas_baseline` key; consequently the evidence carries zero
baselines, each delta is either 0 or the infinity sentinel, and the batch
metrics report zero baselines. -/
theorem c3_baseline_wiring (rows : List Row) (hyps : List PyHyp) (s : Summary)
    (cfg : Cfg) (vs : List Verdict) (m : Metrics)
    (hok : validate hyps s cfg (some rows) = .ok (vs, m)) :
    (validateBaselineRecord rows).map Prod.fst
        = ["median_drop", "drop_std", "roas_drop_threshold", "rows_used"]
    ∧ (validateBaselineRecord rows).lookup "ctr_baseline" = none
    ∧ (validateBaselineRecord rows).lookup "roas_baseline" = none
    ∧ validateEvidence s (some rows)
        = some (evidence_from_summary_and_baseline s (validateBaselineRecord rows))
    ∧ (evidence_from_summary_and_baseline s (validateBaselineRecord rows)).ctr_baseline = 0
    ∧ (evidence_from_summary_and_baseline s (validateBaselineRecord rows)).roas_baseline = 0
    ∧ ((evidence_from_summary_and_baseline s (validateBaselineRecord rows)).ctr_delta_pct = EDelta.fin 0
        ∨ (evidence_from_summary_and_baseline s (validateBaselineRecord rows)).ctr_delta_pct = EDelta.inf)
    ∧ ((evidence_from_summary_and_baseline s (validateBaselineRecord rows)).roas_delta_pct = EDelta.fin 0
        ∨ (evidence_from_summary_and_baseline s (validateBaselineRecord rows)).roas_delta_pct = EDelta.inf)
    ∧ m.ctr_baseline = 0 ∧ m.roas_baseline = 0 := by
  have hc : lookupQ (validateBaselineRecord rows) "ctr_baseline" = 0 := by
    unfold lookupQ
    rw [validateBaselineRecord_eq, roas_record_lookup_ctr]
    rfl
  have hr : lookupQ (validateBaselineRecord rows) "roas_baseline" = 0 := by
    unfold lookupQ
    rw [validateBaselineRecord_eq, roas_record_lookup_roas]
    rfl
  have hparts := validate_ok_parts hok
  refine ⟨by rw [validateBaselineRecord_eq]; exact roas_record_keys rows 30 7 1 (8/100),
    by rw [validateBaselineRecord_eq]; exact roas_record_lookup_ctr rows 30 7 1 (8/100),
    by rw [validateBaselineRecord_eq]; exact roas_record_lookup_roas rows 30 7 1 (8/100),
    validateEvidence_some s rows, hc, hr, ?_, ?_, ?_, ?_⟩
  · have heq : (evidence_from_summary_and_baseline s (validateBaselineRecord rows)).ctr_delta_pct
        = pctDelta (lastCtrOf s) 0 := by
      show pctDelta (lastCtrOf s) (lookupQ (validateBaselineRecord rows) "ctr_baseline")
        = pctDelta (lastCtrOf s) 0
      rw [hc]
    rw [heq]
    exact pctDelta_zero_baseline _
  · have heq : (evidence_from_summary_and_baseline s (validateBaselineRecord rows)).roas_delta_pct
        = pctDelta (lastRoasOf s) 0 := by
      show pctDelta (lastRoasOf s) (lookupQ (validateBaselineRecord rows) "roas_baseline")
        = pctDelta (lastRoasOf s) 0
      rw [hr]
    rw [heq]
    exact pctDelta_zero_baseline _
  · rw [hparts.2.1]
    exact hc
  · rw [hparts.2.2.1]
    exact hr

theorem c3_baseline_wiring_witness :
    (validateBaselineRecord rowsOne).lookup "ctr_baseline" = none
    ∧ (validateBaselineRecord rowsOne).lookup "roas_baseline" = none :=
  ⟨(c3_baseline_wiring rowsOne [] summaryEmpty (Cfg.dict cfgBasic) []
      { validation_rate := 0, num_hypotheses := 0, num_passed := 0,
        ctr_baseline := 0, roas_baseline := 0 }
      (by
        unfold validate
        rw [show runHyps [] (validateEvidence summaryEmpty (some rowsOne)) (Cfg.dict cfgBasic)
            = Except.ok [] from rfl]
        have hc : lookupQ (validateBaseline (some rowsOne)) "ctr_baseline" = 0 := by
          unfold lookupQ
          rw [show validateBaseline (some rowsOne) = validateBaselineRecord rowsOne from rfl,
            validateBaselineRecord_eq, roas_record_lookup_ctr]
          rfl
        have hr : lookupQ (validateBaseline (some rowsOne)) "roas_baseline" = 0 := by
          unfold lookupQ
          rw [show validateBaseline (some rowsOne) = validateBaselineRecord rowsOne from rfl,
            validateBaselineRecord_eq, roas_record_lookup_roas]
          rfl
        simp [hc, hr, List.filter])).2.1,
   (c3_baseline_wiring rowsOne [] summaryEmpty (Cfg.dict cfgBasic) []
      { validation_rate := 0, num_hypotheses := 0, num_passed := 0,
        ctr_baseline := 0, roas_baseline := 0 }
      (by
        unfold validate
        rw [show runHyps [] (validateEvidence summaryEmpty (some rowsOne)) (Cfg.dict cfgBasic)
            = Except.ok [] from rfl]
        have hc : lookupQ (validateBaseline (some rowsOne)) "ctr_baseline" = 0 := by
          unfold lookupQ
          rw [show validateBaseline (some rowsOne) = validateBaselineRecord rowsOne from rfl,
            validateBaselineRecord_eq, roas_record_lookup_ctr]
          rfl
        have hr : lookupQ (validateBaseline (some rowsOne)) "roas_baseline" = 0 := by
          unfold lookupQ
          rw [show validateBaseline (some rowsOne) = validateBaselineRecord rowsOne from rfl,
            validateBaselineRecord_eq, roas_record_lookup_roas]
          rfl
        simp [hc, hr, List.filter])).2.2.1⟩

/-- C2.  Counterexample to "every numeric field of every emitted Verdict is
finite": with any frame (baseline dict lacks a roas_baseline key, so the
baseline is 0) and a summary whose latest roas is 2, the verdict's embedded
evidence carries the literal +Infinity sentinel in `roas_delta_pct`. -/
theorem c2_counterexample :
    (validate [PyHyp.dict hypBasic] summaryDaily (Cfg.dict cfgBasic) (some rowsOne)).toOption.map
        (fun p => p.1.map (fun v => v.evidence.map (fun e => e.roas_delta_pct)))
      = some [some EDelta.inf] := by
  have hbase : lookupQ (validateBaselineRecord rowsOne) "roas_baseline" = 0 := by
    unfold lookupQ
    rw [validateBaselineRecord_eq, roas_record_lookup_roas]
    rfl
  have hroas : (evidence_from_summary_and_baseline summaryDaily (validateBaselineRecord rowsOne)).roas_delta_pct = EDelta.inf := by
    show pctDelta (lastRoasOf summaryDaily) (lookupQ (validateBaselineRecord rowsOne) "roas_baseline") = EDelta.inf
    rw [hbase]
    show pctDelta 2 0 = EDelta.inf
    norm_num [pctDelta]
  have hev := validateEvidence_some summaryDaily rowsOne
  unfold validate
  rw [hev]
  simp only [runHyps, pyEvalOne, Except.map]
  simp only [Except.toOption, Option.map, List.map_cons, List.map_nil]
  show some [some ((evidence_from_summary_and_baseline summaryDaily
    (validateBaselineRecord rowsOne)).roas_delta_pct)] = some [some EDelta.inf]
  rw [hroas]

theorem ctr_small_branch (rows : List Row) (w m : ℕ) (z : ℚ)
    (hlt : (ctrDaily rows).length < m) :
    compute_global_ctr_baseline rows w m z =
      { baseline_ctr := specAggregateCtr rows, ctr_std := 0,
        ctr_low_threshold := max (1/1000000) (specAggregateCtr rows * (1/2)),
        rows_used := (ctrDaily rows).length } := by
  simp only [compute_global_ctr_baseline]
  rw [if_pos hlt]
  rfl

theorem ctrDaily_rowsZeroImp : ctrDaily rowsZeroImp = [] := by
  simp [ctrDaily, dailySums, distinctDates, sortDates, dedupDates, insertAscZ, sumBy,
    rowsZeroImp, List.filter, List.filterMap]

/-- C8.  Counterexample: on thin data the source floors the threshold at
1e-6, so with a zero aggregate CTR the returned threshold is 1e-6, not
"exactly 0.5 times the aggregate CTR" (which would be 0). -/
theorem c8_counterexample :
    (ctrDaily rowsZeroImp).length = 0
    ∧ specAggregateCtr rowsZeroImp = 0
    ∧ (compute_global_ctr_baseline rowsZeroImp 30 7 (3/2)).ctr_low_threshold = 1/1000000
    ∧ (1/1000000 : ℚ) ≠ (1/2) * 0 := by
  have h0 : ctrDaily rowsZeroImp = [] := ctrDaily_rowsZeroImp
  have hagg : specAggregateCtr rowsZeroImp = 0 := by
    simp [specAggregateCtr, rowsZeroImp]
  refine ⟨by rw [h0]; rfl, hagg, ?_, by norm_num⟩
  rw [ctr_small_branch rowsZeroImp 30 7 (3/2) (by rw [h0]; norm_num)]
  show max (1/1000000) (specAggregateCtr rowsZeroImp * (1/2)) = 1/1000000
  rw [hagg]
  norm_num

/-- C8 (amended).  On fewer than `min_days` valid-CTR days the low threshold
is `max(1e-6, 0.5 * aggregate_ctr)` — the claimed product floored at 1e-6 —
with the aggregate CTR as baseline and the valid-day count as `rows_used`. -/
theorem c8_ctr_threshold_amended (rows : List Row) (w m : ℕ) (z : ℚ)
    (hlt : (ctrDaily rows).length < m) :
    (compute_global_ctr_baseline rows w m z).baseline_ctr = specAggregateCtr rows
    ∧ (compute_global_ctr_baseline rows w m z).ctr_low_threshold
        = max (1/1000000) (specAggregateCtr rows * (1/2))
    ∧ (compute_global_ctr_baseline rows w m z).rows_used = (ctrDaily rows).length := by
  rw [ctr_small_branch rows w m z hlt]
  exact ⟨rfl, rfl, rfl⟩

theorem c8_ctr_threshold_amended_witness :
    (compute_global_ctr_baseline rowsZeroImp 30 7 (3/2)).ctr_low_threshold
      = max (1/1000000) (specAggregateCtr rowsZeroImp * (1/2)) :=
  (c8_ctr_threshold_amended rowsZeroImp 30 7 (3/2)
    (by rw [ctrDaily_rowsZeroImp]; norm_num)).2.1

theorem safeStats_nonempty (arr : List ℚ) (h : arr.isEmpty = false) :
    safeStats arr = (listMean arr, npPercentile arr 10, npPercentile arr 90) := by
  unfold safeStats
  rw [h, if_neg Bool.false_ne_true]

theorem baselines_all_days (rows : List Row) (w : ℕ)
    (h0 : (bothDaily rows).length ≠ 0) (hle : ¬ w < (bothDaily rows).length) :
    (compute_global_baselines rows w).ctr_baseline = listMean ((bothDaily rows).map (·.ctr))
    ∧ (compute_global_baselines rows w).roas_baseline = listMean ((bothDaily rows).map (·.roas))
    ∧ (compute_global_baselines rows w).rows_used = (bothDaily rows).length := by
  have hc : ((bothDaily rows).map (·.ctr)).isEmpty = false := by
    cases hb : bothDaily rows with
    | nil => exact absurd (by rw [hb]; rfl) h0
    | cons a l => rfl
  have hr : ((bothDaily rows).map (·.roas)).isEmpty = false := by
    cases hb : bothDaily rows with
    | nil => exact absurd (by rw [hb]; rfl) h0
    | cons a l => rfl
  simp only [compute_global_baselines]
  rw [if_neg h0, if_neg hle]
  refine ⟨?_, ?_, rfl⟩
  · show (safeStats ((bothDaily rows).map (·.ctr))).1 = _
    rw [safeStats_nonempty _ hc]
  · show (safeStats ((bothDaily rows).map (·.roas))).1 = _
    rw [safeStats_nonempty _ hr]

theorem bothDaily_rowsTwo :
    bothDaily rowsTwo = [{ date := 0, ctr := 1/10, roas := 1 }, { date := 1, ctr := 1/100, roas := 1 }] := by
  simp [bothDaily, dailySums, distinctDates, sortDates, dedupDates, insertAscZ, sumBy,
    rowsTwo, List.filter, List.filterMap]

/-- C6.  Counterexample: `compute_global_baselines` has no `min_days`
parameter and no fallback; with 2 valid days (fewer than the claimed default
of 7) it still returns the mean of per-day ratios, 0.055, not the claimed
ratio of summed totals, 2/110. -/
theorem c6_counterexample :
    (bothDaily rowsTwo).length = 2
    ∧ ((2 : ℕ) < 7)
    ∧ (compute_global_baselines rowsTwo 30).ctr_baseline = 11/200
    ∧ specAggregateCtr rowsTwo = 1/55
    ∧ (11/200 : ℚ) ≠ 1/55 := by
  have hb := bothDaily_rowsTwo
  refine ⟨by rw [hb]; rfl, by norm_num, ?_, ?_, by norm_num⟩
  · have hm := (baselines_all_days rowsTwo 30 (by rw [hb]; norm_num) (by rw [hb]; norm_num)).1
    rw [hm, hb]
    norm_num [listMean]
  · simp [specAggregateCtr, rowsTwo]
    norm_num

/-- C6 (amended).  For fewer than 7 valid days (and at least one),
`compute_global_baselines` does NOT fall back to a ratio of sums: it returns
the mean of the per-day ratios over all valid days for both CTR and ROAS,
and it signals the thin sample only through `rows_used`. -/
theorem c6_baseline_amended (rows : List Row)
    (hlt : (bothDaily rows).length < 7) (h0 : (bothDaily rows).length ≠ 0) :
    (compute_global_baselines rows 30).ctr_baseline = listMean ((bothDaily rows).map (·.ctr))
    ∧ (compute_global_baselines rows 30).roas_baseline = listMean ((bothDaily rows).map (·.roas))
    ∧ (compute_global_baselines rows 30).rows_used = (bothDaily rows).length :=
  baselines_all_days rows 30 h0 (by omega)

theorem c6_baseline_amended_witness :
    (compute_global_baselines rowsTwo 30).ctr_baseline
      = listMean ((bothDaily rowsTwo).map (·.ctr)) :=
  (c6_baseline_amended rowsTwo (by rw [bothDaily_rowsTwo]; norm_num)
    (by rw [bothDaily_rowsTwo]; norm_num)).1

theorem roas_small_branch (rows : List Row) (w m : ℕ) (z t : ℚ)
    (hlt : (roasDaily rows).length < m) :
    compute_roas_drop_threshold rows w m z t
      = [("median_drop", 0), ("drop_std", 0), ("roas_drop_threshold", t),
         ("rows_used", ((roasDaily rows).length : ℚ))] := by
  simp only [compute_roas_drop_threshold]
  rw [if_pos hlt]

theorem roas_nodrops_branch (rows : List Row) (w m : ℕ) (z t : ℚ)
    (hge : ¬ (roasDaily rows).length < m)
    (hemp : (positiveDrops ((roasDaily rows).map (·.roas))).isEmpty = true) :
    compute_roas_drop_threshold rows w m z t
      = [("median_drop", 0), ("drop_std", 0), ("roas_drop_threshold", t),
         ("rows_used", ((roasDaily rows).length : ℚ))] := by
  simp only [compute_roas_drop_threshold]
  rw [if_neg hge, if_pos hemp]

theorem roas_main_branch (rows : List Row) (w m : ℕ) (z t : ℚ)
    (hge : ¬ (roasDaily rows).length < m)
    (hne : (positiveDrops ((roasDaily rows).map (·.roas))).isEmpty = false) :
    compute_roas_drop_threshold rows w m z t
      = [("median_drop", pdMedian (positiveDrops ((roasDaily rows).map (·.roas)))),
         ("drop_std", if 1 < (positiveDrops ((roasDaily rows).map (·.roas))).length
            then popStd (positiveDrops ((roasDaily rows).map (·.roas))) else 0),
         ("roas_drop_threshold",
            max (pdMedian (positiveDrops ((roasDaily rows).map (·.roas)))
              + z * (if 1 < (positiveDrops ((roasDaily rows).map (·.roas))).length
                     then popStd (positiveDrops ((roasDaily rows).map (·.roas))) else 0)) t),
         ("rows_used", ((roasDaily rows).length : ℚ))] := by
  simp only [compute_roas_drop_threshold]
  rw [if_neg hge, if_neg (by rw [hne]; exact Bool.false_ne_true)]

theorem roasDaily_rows7 :
    roasDaily rows7 = [{ date := 1, roas := 10 }, { date := 2, roas := 5 },
      { date := 3, roas := 10 }, { date := 4, roas := 5 }, { date := 5, roas := 10 },
      { date := 6, roas := 5 }, { date := 7, roas := 10 }] := by
  simp [roasDaily, dailySums, distinctDates, sortDates, dedupDates, insertAscZ, sumBy,
    rows7, List.filter, List.filterMap]

theorem drops_rows7 :
    positiveDrops ((roasDaily rows7).map (·.roas)) = [1/2, 1/2, 1/2] := by
  rw [roasDaily_rows7]
  show positiveDrops [10, 5, 10, 5, 10, 5, 10] = [1/2, 1/2, 1/2]
  norm_num [positiveDrops, List.zip, List.zipWith, List.filterMap, List.filter]

theorem pdMedian_half : pdMedian [1/2, 1/2, 1/2] = 1/2 := by
  norm_num [pdMedian, sortQ, insertAscQ]

theorem popStd_half : popStd [1/2, 1/2, 1/2] = 0 := by
  have hv : popVar [1/2, 1/2, 1/2] = 0 := by
    norm_num [popVar, listMean]
  rw [popStd, hv]
  rw [ratSqrt, if_pos (le_refl 0)]

/-- C7.  Counterexample to the claimed trailing-window restriction: the
source ignores `window_days`.  On the alternating seven-day frame with
`window_days = 2` the source uses all days (drops of 0.5 each, threshold
0.5), while the windowed computation the claim describes sees only the last
two days (no positive drop) and returns the 0.08 floor. -/
theorem c7_counterexample :
    lookupQ (compute_roas_drop_threshold rows7 2 7 1 (8/100)) "roas_drop_threshold" = 1/2
    ∧ specRoasDropThreshold rows7 2 7 1 (8/100) = 8/100
    ∧ (1/2 : ℚ) ≠ 8/100 := by
  have hlen : (roasDaily rows7).length = 7 := by rw [roasDaily_rows7]; rfl
  refine ⟨?_, ?_, by norm_num⟩
  · rw [roas_main_branch rows7 2 7 1 (8/100) (by rw [hlen]; norm_num) (by rw [drops_rows7]; rfl)]
    unfold lookupQ
    rw [drops_rows7, pdMedian_half]
    have hs : (if 1 < ([1/2, 1/2, 1/2] : List ℚ).length then popStd [1/2, 1/2, 1/2] else 0) = 0 := by
      rw [if_pos (by norm_num), popStd_half]
    rw [hs]
    show ((1/2 + 1 * 0 : ℚ) ⊔ 8/100) = 1/2
    norm_num
  · simp only [specRoasDropThreshold]
    rw [roasDaily_rows7]
    rw [if_neg (by norm_num)]
    norm_num [List.max?, List.filter, positiveDrops, List.zip, List.zipWith, List.filterMap]

/-- C7 (amended).  The drop series, positivity filter, median + z·std
formula, floor, and the two floor-return cases are as claimed, but there is
no trailing-window restriction: the result is independent of `window_days`
and the drop series ranges over all valid days. -/
theorem c7_roas_threshold_amended (rows : List Row) (w₁ w₂ m : ℕ) (z t : ℚ) :
    compute_roas_drop_threshold rows w₁ m z t = compute_roas_drop_threshold rows w₂ m z t
    ∧ ((roasDaily rows).length < m →
        lookupQ (compute_roas_drop_threshold rows w₁ m z t) "roas_drop_threshold" = t)
    ∧ (¬ (roasDaily rows).length < m →
        (positiveDrops ((roasDaily rows).map (·.roas))).isEmpty = true →
        lookupQ (compute_roas_drop_threshold rows w₁ m z t) "roas_drop_threshold" = t)
    ∧ (¬ (roasDaily rows).length < m →
        (positiveDrops ((roasDaily rows).map (·.roas))).isEmpty = false →
        lookupQ (compute_roas_drop_threshold rows w₁ m z t) "roas_drop_threshold"
          = max (pdMedian (positiveDrops ((roasDaily rows).map (·.roas)))
              + z * (if 1 < (positiveDrops ((roasDaily rows).map (·.roas))).length
                     then popStd (positiveDrops ((roasDaily rows).map (·.roas))) else 0)) t) := by
  refine ⟨rfl, ?_, ?_, ?_⟩
  · intro hlt
    rw [roas_small_branch rows w₁ m z t hlt]
    rfl
  · intro hge hemp
    rw [roas_nodrops_branch rows w₁ m z t hge hemp]
    rfl
  · intro hge hne
    rw [roas_main_branch rows w₁ m z t hge hne]
    rfl

theorem c7_roas_threshold_amended_witness :
    lookupQ (compute_roas_drop_threshold rows7 2 7 1 (8/100)) "roas_drop_threshold"
      = max (pdMedian (positiveDrops ((roasDaily rows7).map (·.roas)))
          + 1 * (if 1 < (positiveDrops ((roasDaily rows7).map (·.roas))).length
                 then popStd (positiveDrops ((roasDaily rows7).map (·.roas))) else 0)) (8/100) :=
  (c7_roas_threshold_amended rows7 2 30 7 1 (8/100)).2.2.2
    (by rw [roasDaily_rows7]; norm_num)
    (by rw [drops_rows7]; rfl)

end AdAnalyst
